import Mathlib

/-!
Shallow embedding of the context-aware notification and recommendation engine
(`server.py` of the Montreal Travel Companion API), together with theorems
settling the specification claims about it.

Conventions of the embedding:
* Python `float` values are modelled as real numbers (`ℝ`); Python `int` as `ℤ`.
* Python dictionaries keyed by strings are modelled as functions
  `String → Option _` (key absent ↦ `none`); dictionaries with a fixed key set
  (such as a stored preference profile) are modelled as structures.
* Insertion-ordered dictionaries whose iteration order matters
  (`meal_times`, `CUISINE_CATEGORIES`) are modelled as association lists.
* A Python function that can implicitly return `None` or raise is modelled
  with an `Option` result; an external HTTP call is modelled by passing the
  provider (optional) response as an argument, `none` standing for a
  timeout / transport error.
* Wall-clock timestamps attached to notifications are omitted: no claim
  concerns them and real time has no shallow embedding.
-/

namespace TravelCompanion

/-- Substring test, mirroring the Python `needle in haystack` for strings:
`(s.splitOn pat)` has more than one piece exactly when the (non-empty)
pattern `pat` occurs in `s`. -/
def containsSubstr (s pat : String) : Bool :=
  (s.splitOn pat).length > 1

/-! ### Constants (`server.py` lines 50-65) -/

def LOCATION_CHANGE_THRESHOLD_KM : ℝ := 0.25

def TEMPERATURE_CHANGE_THRESHOLD_C : ℤ := 1

def NOTIFICATION_HISTORY_LIMIT : Nat := 50

def OUTDOOR_MIN_TEMP_C : ℤ := -25

def OUTDOOR_MAX_TEMP_C : ℤ := 38

/-! ### Time-period classification (`get_time_period`, `get_time_period_key`) -/

/-- Models `get_time_period(hour)`: human-readable time period.  the Python chained
comparison `5 <= hour < 8` becomes an explicit conjunction. -/
def get_time_period (hour : ℤ) : String :=
  if 5 ≤ hour ∧ hour < 8 then "Early Morning"
  else if 8 ≤ hour ∧ hour < 12 then "Morning"
  else if 12 ≤ hour ∧ hour < 17 then "Afternoon"
  else if 17 ≤ hour ∧ hour < 21 then "Evening"
  else if (21 ≤ hour ∧ hour < 24) ∨ (0 ≤ hour ∧ hour < 2) then "Night"
  else "Late Night"

/-- Models `get_time_period_key(hour)`: time period key for category lookup. -/
def get_time_period_key (hour : ℤ) : String :=
  if 5 ≤ hour ∧ hour < 8 then "early_morning"
  else if 8 ≤ hour ∧ hour < 12 then "morning"
  else if 12 ≤ hour ∧ hour < 17 then "noon"
  else if 17 ≤ hour ∧ hour < 21 then "evening"
  else "night"

/-! ### Meal matching (`get_meal_type`) -/

/-- Decimal-digit accumulation for `int()`: consumes the remaining
characters, failing on the first non-digit. -/
def parse_nat_digits (acc : ℕ) : List Char → Option ℕ
  | [] => some acc
  | c :: cs =>
    if c.isDigit then parse_nat_digits (10 * acc + (c.toNat - 48)) cs
    else none

/-- the Python `int()` on a character list: an optional sign followed by one
or more decimal digits; anything else raises (`none` here). -/
def parse_int (cs : List Char) : Option ℤ :=
  match cs with
  | [] => none
  | '-' :: rest =>
    if rest.isEmpty then none
    else (parse_nat_digits 0 rest).map (fun n => -(n : ℤ))
  | '+' :: rest =>
    if rest.isEmpty then none
    else (parse_nat_digits 0 rest).map (fun n => (n : ℤ))
  | _ => (parse_nat_digits 0 cs).map (fun n => (n : ℤ))

/-- The hour part of a `"HH:MM"` meal time: `int(time_str.split(":")[0])`,
i.e. the text before the first colon parsed as an integer.  A string whose
first `:`-separated field is not an integer yields `none` (the Python code
catches the `ValueError` and skips the entry). -/
def parse_meal_hour (time_str : String) : Option ℤ :=
  parse_int (time_str.data.takeWhile (fun c => c ≠ ':'))

/-- Models `get_meal_type(current_hour, meal_times)`: the first configured meal whose
hour is within 1 of `current_hour`; entries with malformed times are
skipped. `meal_times` is an association list preserving insertion order. -/
def get_meal_type (current_hour : ℤ) (meal_times : List (String × String)) :
    Option String :=
  match meal_times with
  | [] => none
  | (meal, time_str) :: rest =>
    match parse_meal_hour time_str with
    | some meal_hour =>
      if (current_hour - meal_hour).natAbs ≤ 1 then some meal
      else get_meal_type current_hour rest
    | none => get_meal_type current_hour rest

/-! ### Outdoor suitability (`is_outdoor_suitable`) -/

def is_outdoor_suitable (weather : String) (temperature : ℤ) : Bool :=
  if temperature < OUTDOOR_MIN_TEMP_C ∨ OUTDOOR_MAX_TEMP_C < temperature then
    false
  else if weather == "rainy" ∧ temperature < 10 then false
  else true

/-! ### Activity category tables (`ACTIVITY_CATEGORIES`) -/

/-- Models `ACTIVITY_CATEGORIES["indoor"]`, key-membership modelled with `Option`. -/
def indoor_categories (time_key : String) : Option (List String) :=
  if time_key = "early_morning" then
    some ["gym", "fitness center", "yoga studio"]
  else if time_key = "morning" then
    some ["museum", "art gallery", "library", "bookstore",
          "shopping mall", "aquarium"]
  else if time_key = "noon" then
    some ["arcade", "amusement center", "bowling alley", "shopping mall",
          "movie theater", "museum", "art gallery", "aquarium", "spa"]
  else if time_key = "evening" then
    some ["bowling alley", "movie theater", "arcade", "casino",
          "shopping mall", "gym", "spa"]
  else if time_key = "night" then
    some ["night club", "casino", "movie theater", "bar"]
  else none

/-- Models `ACTIVITY_CATEGORIES["outdoor"]`. -/
def outdoor_categories (time_key : String) : Option (List String) :=
  if time_key = "early_morning" then
    some ["park", "hiking trail", "nature preserve", "garden", "bike trail"]
  else if time_key = "morning" then
    some ["tourist attraction", "zoo", "botanical garden", "park",
          "marina", "scenic viewpoint"]
  else if time_key = "noon" then
    some ["beach", "water park", "theme park", "zoo", "tourist attraction",
          "stadium", "sports complex", "marina", "playground"]
  else if time_key = "evening" then
    some ["park", "tourist attraction", "stadium", "sports complex",
          "marina", "theme park"]
  else if time_key = "night" then
    some ["night club", "casino"]
  else none

/-! ### Weather-based activity filtering (`filter_activities_by_weather`) -/

def water_activities : List String := ["beach", "water park", "marina", "boat rental"]

def cold_weather_activities : List String := ["ice skating", "ski area", "sledding"]

def rain_sensitive : List String :=
  ["hiking trail", "park", "playground", "sports complex", "stadium"]

/-- The per-activity branch of the loop in `filter_activities_by_weather`:
`true` exactly when the loop appends `activity` to `filtered`. -/
def keep_activity (weather : String) (temperature : ℤ) (activity : String) :
    Bool :=
  let activity_lower := activity.toLower
  if weather == "snowy" ∨ temperature < -5 then
    cold_weather_activities.any (fun cold => containsSubstr activity_lower cold) ||
      !(water_activities.any (fun water => containsSubstr activity_lower water))
  else if weather == "rainy" then
    (["mall", "market", "covered", "indoor"].any
        (fun term => containsSubstr activity_lower term)) ||
      !(rain_sensitive.any (fun rain => containsSubstr activity_lower rain))
  else if temperature < 10 then
    !(water_activities.any (fun water => containsSubstr activity_lower water))
  else if temperature > 28 then true
  else true

/-- Models `filter_activities_by_weather(activities, weather, temperature)`:
keep the activities passing the weather rules; if none survive, return the
whole input (`return filtered if filtered else activities`). -/
def filter_activities_by_weather (activities : List String) (weather : String)
    (temperature : ℤ) : List String :=
  let filtered := activities.filter (keep_activity weather temperature)
  if filtered.isEmpty then activities else filtered

/-! ### Activity search terms (`get_activity_search_terms`) -/

/-- Models `ACTIVITY_CATEGORIES["indoor"]["morning"]`, the default fallback used by
`get_activity_search_terms` for an unknown time key. -/
def indoor_morning_fallback : List String :=
  (indoor_categories "morning").getD []

/-- Base outdoor activities for a time period: the `time_key` fallback to
`"morning"` followed by `ACTIVITY_CATEGORIES["outdoor"][time_key]`. -/
def outdoor_base (time_period : String) : List String :=
  let time_key :=
    if (outdoor_categories time_period).isSome then time_period else "morning"
  (outdoor_categories time_key).getD []

/-- Models `get_activity_search_terms(activity_type, time_period, weather, temperature)`.
`weather`/`temperature` are the optional parameters; the Python truthiness test
`if weather and temperature is not None` requires the weather string to be
present and non-empty and the temperature to be present. -/
def get_activity_search_terms (activity_type time_period : String)
    (weather : Option String) (temperature : Option ℤ) : List String :=
  if activity_type == "indoor" then
    match indoor_categories time_period with
    | some cats => cats
    | none => indoor_morning_fallback
  else
    match weather, temperature with
    | some w, some t =>
      if w ≠ "" then
        if !(is_outdoor_suitable w t) then
          -- weather known and not suitable: indoor alternatives
          match indoor_categories time_period with
          | some cats => cats
          | none => indoor_morning_fallback
        else
          let outdoor_activities := outdoor_base time_period
          let filtered := filter_activities_by_weather outdoor_activities w t
          if filtered.isEmpty then outdoor_activities else filtered
      else outdoor_base time_period
    | _, _ => outdoor_base time_period

/-! ### GeoMath (`calculate_distance`)

Python floats are idealised as real numbers; `math.radians`, `math.sin`,
`math.cos`, `math.sqrt` and `math.atan2` become their exact counterparts. -/

/-- Models `math.radians(x) = x * pi / 180`. -/
noncomputable def radians (x : ℝ) : ℝ := x * Real.pi / 180

/-- Models `math.atan2(y, x)`, with the C99 sign conventions used by Python. -/
noncomputable def atan2 (y x : ℝ) : ℝ :=
  if 0 < x then Real.arctan (y / x)
  else if x < 0 ∧ 0 ≤ y then Real.arctan (y / x) + Real.pi
  else if x < 0 ∧ y < 0 then Real.arctan (y / x) - Real.pi
  else if x = 0 ∧ 0 < y then Real.pi / 2
  else if x = 0 ∧ y < 0 then -(Real.pi / 2)
  else 0

/-- The haversine intermediate
`a = sin(dlat/2)**2 + cos(lat1) * cos(lat2) * sin(dlon/2)**2`
(after the coordinates have been converted to radians). -/
noncomputable def haversine_a (lat1 lon1 lat2 lon2 : ℝ) : ℝ :=
  Real.sin ((radians lat2 - radians lat1) / 2) ^ 2 +
    Real.cos (radians lat1) * Real.cos (radians lat2) *
      Real.sin ((radians lon2 - radians lon1) / 2) ^ 2

/-- Models `calculate_distance(lat1, lon1, lat2, lon2)`: haversine distance in km on
a sphere of radius `R = 6371`, `R * 2 * atan2(sqrt(a), sqrt(1-a))`. -/
noncomputable def calculate_distance (lat1 lon1 lat2 lon2 : ℝ) : ℝ :=
  let R : ℝ := 6371
  let a := haversine_a lat1 lon1 lat2 lon2
  let c := 2 * atan2 (Real.sqrt a) (Real.sqrt (1 - a))
  R * c

/-! ### Weather provider adapter (`get_weather`) -/

/-- The fields of an OpenWeatherMap reply that `get_weather` consumes, plus
the HTTP status code.  A call that times out or fails at the transport level
raises in Python; the caller of the model passes `none` for that case. -/
structure OpenWeatherResponse where
  status_code : Nat
  /-- Models `data["weather"][0]["main"]` -/
  weather_main : String
  /-- Models `data["weather"][0]["description"]` -/
  description : String
  /-- Models `data["main"]["temp"]` -/
  temp : ℝ
  /-- Models `data["main"]["humidity"]` -/
  humidity : ℤ
  /-- Models `data["wind"]["speed"]` -/
  wind_speed : ℝ

/-- The `weather_map` lookup with default `"sunny"`. -/
def weather_map (weather_main : String) : String :=
  if weather_main = "rain" then "rainy"
  else if weather_main = "drizzle" then "rainy"
  else if weather_main = "thunderstorm" then "rainy"
  else if weather_main = "snow" then "snowy"
  else if weather_main = "clouds" then "cloudy"
  else if weather_main = "mist" then "cloudy"
  else if weather_main = "fog" then "cloudy"
  else "sunny"

/-- The dictionary `get_weather` returns on success. -/
structure WeatherData where
  weather : String
  temperature : ℤ
  description : String
  humidity : ℤ
  wind_speed : ℝ

/-- Models `get_weather(lat, lon)` given the provider reply (`none` = timeout or
transport error, which raises in Python and so also produces no value).
On a non-200 status the Python function only logs and falls off the end,
implicitly returning `None`: there is no fallback weather value.
(the Python `round` uses bankers rounding; `round` here rounds half away
from zero — no claim depends on the rounding mode.) -/
noncomputable def get_weather (response : Option OpenWeatherResponse) :
    Option WeatherData :=
  match response with
  | none => none
  | some r =>
    if r.status_code = 200 then
      some { weather := weather_map r.weather_main.toLower
             temperature := round r.temp
             description := r.description
             humidity := r.humidity
             wind_speed := r.wind_speed }
    else none

/-! ### Data model (Pydantic models of `server.py`) -/

/-- Models `LocationData`. -/
structure LocationData where
  latitude : ℝ
  longitude : ℝ

/-- Models `UserPreferences` (and the per-user dictionary stored by
`save_preferences`, whose `updated_at` timestamp is omitted along with all
other wall-clock values). -/
structure UserPreferences where
  user_id : String
  activity_type : String
  meal_times : List (String × String)
  preferred_cuisines : List String

/-- A normalized place as produced by `search_places_nearby`. -/
structure Place where
  name : String
  address : String
  latitude : Option ℝ
  longitude : Option ℝ
  /-- distance from the query point in metres, already computed -/
  distance : ℤ
  categories : List String
  rating : Option ℝ

/-- The `Recommendation` response model. -/
structure Recommendation where
  name : String
  type : String
  description : String
  address : String
  reason : String
  distance : Option ℤ := none
  rating : Option ℝ := none
  latitude : Option ℝ := none
  longitude : Option ℝ := none

/-! ### Search query construction (`CUISINE_CATEGORIES`,
`build_google_search_query`) -/

def CUISINE_CATEGORIES : List (String × String) :=
  [("Italian", "italian restaurant"),
   ("Burgers", "burger restaurant"),
   ("Pizza", "pizza restaurant"),
   ("Asian", "asian restaurant"),
   ("French", "french restaurant"),
   ("Mexican", "mexican restaurant"),
   ("Cafe", "cafe coffee shop"),
   ("Chinese", "chinese restaurant"),
   ("Japanese", "japanese restaurant sushi"),
   ("Indian", "indian restaurant"),
   ("Thai", "thai restaurant"),
   ("Korean", "korean restaurant"),
   ("Mediterranean", "mediterranean restaurant"),
   ("Vietnamese", "vietnamese restaurant"),
   ("Greek", "greek restaurant"),
   ("Seafood", "seafood restaurant"),
   ("Steakhouse", "steakhouse")]

/-- Models `build_google_search_query(preferences, meal_type)`: cuisine-specific
terms for the cuisines present in `CUISINE_CATEGORIES`, followed by the
fixed generic terms for the specific meal; empty when not meal time. -/
def build_google_search_query (preferences : UserPreferences)
    (meal_type : Option String) : List String :=
  match meal_type with
  | none => []
  | some meal =>
    let cuisine_terms := preferences.preferred_cuisines.filterMap
      (fun cuisine => CUISINE_CATEGORIES.lookup cuisine)
    let generic_terms :=
      if meal = "breakfast" then
        ["breakfast restaurant", "cafe", "coffee shop", "brunch restaurant",
         "bakery", "breakfast diner"]
      else if meal = "lunch" then
        ["lunch restaurant", "restaurant", "bistro", "cafe", "fast food",
         "deli"]
      else if meal = "dinner" then
        ["dinner restaurant", "restaurant", "fine dining", "steakhouse",
         "gastropub"]
      else []
    cuisine_terms ++ generic_terms

/-! ### Recommendation engine (`generate_recommendations`) -/

/-- The food heuristic of the restaurant part: category string or name
contains one of the food keywords. -/
def is_food_place (food_terms : List String) (p : Place) : Bool :=
  let categories_str := (String.intercalate " " p.categories).toLower
  let name_lower := p.name.toLower
  food_terms.any (fun term =>
    containsSubstr categories_str term || containsSubstr name_lower term)

/-- Food keywords used when keeping restaurant results (PART 1). -/
def meal_food_terms : List String :=
  ["restaurant", "cafe", "food", "dining", "bakery", "bistro", "eatery",
   "coffee"]

/-- Food keywords used when excluding food places from activities (PART 2). -/
def activity_food_terms : List String :=
  ["restaurant", "cafe", "dining", "cuisine", "bistro", "eatery", "food"]

/-- The restaurant recommendations built from the first 8 query results that
pass the food heuristic (the `for restaurant in restaurants[:8]` loop). -/
def meal_recommendations (preferences : UserPreferences) (meal_type : String)
    (restaurants : List Place) : List Recommendation :=
  let cuisine_desc :=
    if preferences.preferred_cuisines.isEmpty then "Various"
    else String.intercalate ", " preferences.preferred_cuisines
  ((restaurants.take 8).filter (is_food_place meal_food_terms)).map
    (fun r =>
      { name := r.name
        type := "restaurant"
        description := String.intercalate ", " (r.categories.take 3)
        address := r.address
        reason := "Perfect for " ++ meal_type ++ " - " ++ cuisine_desc ++
          " cuisine"
        distance := some r.distance
        latitude := r.latitude
        longitude := r.longitude
        rating := r.rating })

/-- PART 1 of `generate_recommendations`: the restaurant recommendations,
empty when it is not meal time, when the search-term list is empty, or when
the place query failed (`restaurant_results = none`, the caught
`HTTPException`). -/
def meal_part (preferences : UserPreferences) (current_hour : ℤ)
    (restaurant_results : Option (List Place)) : List Recommendation :=
  match get_meal_type current_hour preferences.meal_times with
  | none => []
  | some meal_type =>
    if (build_google_search_query preferences (some meal_type)).isEmpty then
      []
    else
      match restaurant_results with
      | none => []
      | some restaurants =>
        meal_recommendations preferences meal_type restaurants

/-- Models `get_suitable_activities_by_time(current_hour, activity_type)`:
categories for the time of day together with the human-readable reason. -/
def get_suitable_activities_by_time (current_hour : ℤ)
    (activity_type : String) : List String × String :=
  let time_key := get_time_period_key current_hour
  let reason := get_time_period current_hour ++ " " ++ activity_type ++
    " activities"
  if activity_type == "indoor" then
    ((indoor_categories time_key).getD indoor_morning_fallback, reason)
  else
    ((outdoor_categories time_key).getD
      ((outdoor_categories "morning").getD []), reason)

/-- The reason string attached to an activity recommendation. -/
def activity_reason (preferences : UserPreferences) (current_hour : ℤ)
    (weather_data : WeatherData) : String :=
  let time_based :=
    (get_suitable_activities_by_time current_hour
      preferences.activity_type).2
  if preferences.activity_type == "outdoor" then
    if !(is_outdoor_suitable weather_data.weather weather_data.temperature)
    then time_based ++ " (showing indoor alternatives due to weather)"
    else time_based ++ " (weather: " ++ weather_data.weather ++ ", " ++
      toString weather_data.temperature ++ "°C)"
  else time_based

/-- One activity result mapped to a `Recommendation`. -/
def activity_recommendation (reason : String) (p : Place) : Recommendation :=
  { name := p.name
    type := p.categories.headD "activity"
    description := String.intercalate ", " (p.categories.take 3)
    address := p.address
    reason := reason
    distance := some p.distance
    latitude := p.latitude
    longitude := p.longitude
    rating := p.rating }

/-- The `for activity in activities` loop of PART 2: skip food places,
append the rest, and break as soon as the combined list reaches 10. -/
def add_activity_recommendations (recommendations : List Recommendation)
    (reason : String) (activities : List Place) : List Recommendation :=
  match activities with
  | [] => recommendations
  | p :: rest =>
    if is_food_place activity_food_terms p then
      add_activity_recommendations recommendations reason rest
    else if 10 ≤ (recommendations ++ [activity_recommendation reason p]).length
    then recommendations ++ [activity_recommendation reason p]
    else
      add_activity_recommendations
        (recommendations ++ [activity_recommendation reason p]) reason rest

/-- Models `generate_recommendations(preferences, location, current_hour,
weather_data)`.  The two external place queries are passed in as arguments,
`none` standing for a query that raised an `HTTPException` (caught and
treated as producing nothing). -/
def generate_recommendations (preferences : UserPreferences)
    (location : LocationData) (current_hour : ℤ)
    (weather_data : WeatherData)
    (restaurant_results activity_results : Option (List Place)) :
    List Recommendation :=
  if (get_meal_type current_hour preferences.meal_times).isSome = false ∨
      (meal_part preferences current_hour restaurant_results).length < 10 then
    if (get_activity_search_terms preferences.activity_type
        (get_time_period_key current_hour) (some weather_data.weather)
        (some weather_data.temperature)).isEmpty then
      meal_part preferences current_hour restaurant_results
    else
      match activity_results with
      | none => meal_part preferences current_hour restaurant_results
      | some activities =>
        add_activity_recommendations
          (meal_part preferences current_hour restaurant_results)
          (activity_reason preferences current_hour weather_data) activities
  else meal_part preferences current_hour restaurant_results

/-! ### Context snapshots, notification events and the in-memory stores -/

/-- The `"location"` entry of a context dictionary. -/
structure Coordinate where
  latitude : ℝ
  longitude : ℝ

/-- A context dictionary (`new_context` / `user_last_context[user_id]`).
Each key may be absent. -/
structure ContextSnapshot where
  location : Option Coordinate := none
  time_hour : Option ℤ := none
  weather : Option String := none
  temperature : Option ℤ := none

/-- A notification dictionary.  The common keys are `type`, `title`,
`message`; the remaining fields are the type-specific payload entries,
absent (`none`) for the other event types.  The `timestamp` key is omitted
(wall clock). -/
structure NotificationEvent where
  type : String
  title : String
  message : String
  distance_moved : Option ℝ := none
  old_period : Option String := none
  new_period : Option String := none
  meal_type : Option String := none
  old_weather : Option String := none
  new_weather : Option String := none
  activity_suggestion : Option String := none
  old_temperature : Option ℤ := none
  new_temperature : Option ℤ := none

/-- The three module-level dictionaries that hold the engine state
(`user_preferences_store` is only read by the paths modelled here, so the
relevant preferences are passed as arguments instead). -/
structure ServerState where
  user_last_context : String → Option ContextSnapshot
  user_notifications : String → Option (List NotificationEvent)

/-- Dictionary update `m[k] = v`. -/
def update_map {α : Type} (m : String → Option α) (k : String) (v : α) :
    String → Option α :=
  fun k' => if k' = k then some v else m k'

/-- the Python `l[-n:]`: the last `n` elements of a list (the whole list when
it is shorter). -/
def lastN {α : Type} (n : Nat) (l : List α) : List α :=
  l.drop (l.length - n)

/-! ### Weather transition table (`get_weather_activity_impact`) -/

def weather_transitions : List ((String × String) × (String × String)) :=
  [(("sunny", "rainy"),
    ("Weather changed to rainy. Consider indoor activities.", "indoor")),
   (("sunny", "snowy"),
    ("Snow has started! Winter activities are now available.",
     "winter_sports")),
   (("rainy", "sunny"),
    ("Rain has stopped! Great time for outdoor activities.", "outdoor")),
   (("snowy", "sunny"),
    ("Snow has cleared. Enjoy outdoor activities!", "outdoor")),
   (("cloudy", "sunny"),
    ("Sun is out! Perfect for outdoor exploration.", "outdoor")),
   (("sunny", "cloudy"),
    ("Weather is now cloudy but still good for activities.", "outdoor"))]

/-- Models `get_weather_activity_impact(old_weather, new_weather)`: the
`(message, suggestion)` pair, with the graceful fallback text for pairs not
in the table. -/
def get_weather_activity_impact (old_weather new_weather : String) :
    String × String :=
  (weather_transitions.lookup (old_weather, new_weather)).getD
    ("Weather changed from " ++ old_weather ++ " to " ++ new_weather ++ ".",
     "check_recommendations")

/-! ### Context change detection (`detect_context_changes`) -/

/-- Models `round(x, 2)` on an idealised float: round to two decimal places.
(Python rounds half to even; no claim depends on the tie-breaking rule.) -/
noncomputable def round2 (x : ℝ) : ℝ := (round (100 * x) : ℤ) / 100

/-- Decimal rendering of `round(x, 2)` as used inside the location-change
message; an idealisation of the Python float formatting. -/
noncomputable def format_round2 (x : ℝ) : String :=
  let centi : ℤ := round (100 * x)
  toString (centi / 100) ++ "." ++ toString (centi % 100 / 10) ++
    toString (centi % 100 % 10)

/-- The location-change branch of `detect_context_changes`: fires when both
contexts carry a location and the haversine distance exceeds
`LOCATION_CHANGE_THRESHOLD_KM`. -/
noncomputable def location_change_events
    (new_context old_context : ContextSnapshot) : List NotificationEvent :=
  match new_context.location, old_context.location with
  | some new_loc, some old_loc =>
    if calculate_distance old_loc.latitude old_loc.longitude
        new_loc.latitude new_loc.longitude >
        LOCATION_CHANGE_THRESHOLD_KM then
      [{ type := "location_change"
         title := "Location Changed"
         message := "You\x27ve moved " ++
           format_round2 (calculate_distance old_loc.latitude
             old_loc.longitude new_loc.latitude new_loc.longitude) ++
           " km. Check out nearby recommendations!"
         distance_moved := some (round2 (calculate_distance old_loc.latitude
           old_loc.longitude new_loc.latitude new_loc.longitude)) }]
    else []
  | _, _ => []

/-- The time-period branch: fires when both contexts carry an hour and the
human-readable periods differ. -/
def time_period_change_events (new_context old_context : ContextSnapshot) :
    List NotificationEvent :=
  match new_context.time_hour, old_context.time_hour with
  | some new_hour, some old_hour =>
    if get_time_period old_hour ≠ get_time_period new_hour then
      [{ type := "time_period_change"
         title := get_time_period new_hour ++ " Activities Available"
         message := "It\x27s now " ++ (get_time_period new_hour).toLower ++
           "! Discover activities for this time of day."
         old_period := some (get_time_period old_hour)
         new_period := some (get_time_period new_hour) }]
    else []
  | _, _ => []

/-- The body of the meal-time check for a given pair of hours:
`if meal_type and meal_type != old_meal_type`.  Python truthiness makes a
`None` match — and also an (unreachable under the Pydantic validator) empty
meal name — emit nothing. -/
def meal_time_events_at (preferences : UserPreferences)
    (new_hour old_hour : ℤ) : List NotificationEvent :=
  match get_meal_type new_hour preferences.meal_times with
  | some meal =>
    if meal ≠ "" ∧
        some meal ≠ get_meal_type old_hour preferences.meal_times then
      [{ type := "meal_time"
         title := "Time for " ++ meal.capitalize ++ "!"
         message := "Check out restaurant recommendations for " ++ meal ++
           " nearby."
         meal_type := some meal }]
    else []
  | none => []

/-- The meal-time branch, nested under the same hour-presence check as the
time-period branch. -/
def meal_time_events (preferences : UserPreferences)
    (new_context old_context : ContextSnapshot) : List NotificationEvent :=
  match new_context.time_hour, old_context.time_hour with
  | some new_hour, some old_hour =>
    meal_time_events_at preferences new_hour old_hour
  | _, _ => []

/-- The weather branch: fires when both contexts carry a weather value and
they differ. -/
def weather_change_events (new_context old_context : ContextSnapshot) :
    List NotificationEvent :=
  match new_context.weather, old_context.weather with
  | some new_weather, some old_weather =>
    if old_weather ≠ new_weather then
      let weather_impact := get_weather_activity_impact old_weather new_weather
      [{ type := "weather_change"
         title := "Weather Update"
         message := weather_impact.1
         old_weather := some old_weather
         new_weather := some new_weather
         activity_suggestion := some weather_impact.2 }]
    else []
  | _, _ => []

/-- The temperature branch: fires when both contexts carry a temperature and
the absolute difference reaches `TEMPERATURE_CHANGE_THRESHOLD_C`. -/
def temperature_change_events (new_context old_context : ContextSnapshot) :
    List NotificationEvent :=
  match new_context.temperature, old_context.temperature with
  | some new_temperature, some old_temperature =>
    if 1 ≤ (new_temperature - old_temperature).natAbs then
      [{ type := "temperature_change"
         title := "Temperature Changed"
         message := "Temperature changed from " ++ toString old_temperature ++
           "°C to " ++ toString new_temperature ++ "°C."
         old_temperature := some old_temperature
         new_temperature := some new_temperature }]
    else []
  | _, _ => []

/-- The full batch of notifications one context diff emits, in source
order: location, time period, meal, weather, temperature. -/
noncomputable def detect_notifications (preferences : UserPreferences)
    (new_context old_context : ContextSnapshot) : List NotificationEvent :=
  location_change_events new_context old_context ++
  (time_period_change_events new_context old_context ++
    meal_time_events preferences new_context old_context) ++
  weather_change_events new_context old_context ++
  temperature_change_events new_context old_context

/-- The `# Store in history` block of `detect_context_changes`: a non-empty
batch is appended to the history of the user, which is then truncated to its
last `NOTIFICATION_HISTORY_LIMIT` entries; an empty batch writes nothing. -/
def store_notification_batch (user_id : String)
    (notifications : List NotificationEvent) (st : ServerState) :
    ServerState :=
  if notifications.isEmpty then st
  else
    { st with
      user_notifications :=
        update_map st.user_notifications user_id
          (lastN NOTIFICATION_HISTORY_LIMIT
            ((st.user_notifications user_id).getD [] ++ notifications)) }

/-- Models `detect_context_changes(user_id, new_context, preferences)`: returns the
emitted notifications and the updated state.  On the first observation of a
user the snapshot is stored and nothing is emitted; otherwise the four
independent checks run in order, the incoming snapshot unconditionally
replaces the stored one, and the batch is persisted to the history. -/
noncomputable def detect_context_changes (user_id : String)
    (new_context : ContextSnapshot) (preferences : UserPreferences)
    (st : ServerState) : List NotificationEvent × ServerState :=
  match st.user_last_context user_id with
  | none =>
    ([], { st with
           user_last_context :=
             update_map st.user_last_context user_id new_context })
  | some old_context =>
    (detect_notifications preferences new_context old_context,
     store_notification_batch user_id
       (detect_notifications preferences new_context old_context)
       { st with
         user_last_context :=
           update_map st.user_last_context user_id new_context })

/-- Models `store_notification(user_id, notification)`: append one notification to
the history of the user and truncate to the last `NOTIFICATION_HISTORY_LIMIT`. -/
def store_notification (user_id : String)
    (notification : NotificationEvent) (st : ServerState) : ServerState :=
  { st with
    user_notifications :=
      update_map st.user_notifications user_id
        (lastN NOTIFICATION_HISTORY_LIMIT
          ((st.user_notifications user_id).getD [] ++ [notification])) }

/-! ### Notification history endpoint (`get_notification_history`) -/

/-- The response of `GET /api/notifications/{user_id}`.  The handler never
raises: for a user with no stored history it returns this same response
shape with empty fields. -/
structure NotificationHistoryResponse where
  user_id : String
  notifications : List NotificationEvent
  total : Nat
  showing : Nat

/-- Models `get_notification_history(user_id, limit)`. -/
def get_notification_history (st : ServerState) (user_id : String)
    (limit : Nat) : NotificationHistoryResponse :=
  match st.user_notifications user_id with
  | none =>
    { user_id := user_id, notifications := [], total := 0, showing := 0 }
  | some notifications =>
    let limited :=
      if notifications.length > limit then lastN limit notifications
      else notifications
    { user_id := user_id
      notifications := limited
      total := notifications.length
      showing := limited.length }

/-! ### Concrete sample values used by witnesses and counterexamples -/

/-- A provider reply with a non-success HTTP status. -/
def weather_error_response : OpenWeatherResponse :=
  { status_code := 500
    weather_main := "Rain"
    description := "light rain"
    temp := 4
    humidity := 80
    wind_speed := 3 }

/-- The empty engine state: no stored contexts, no notification history. -/
def empty_state : ServerState :=
  { user_last_context := fun _ => none
    user_notifications := fun _ => none }

/-- A state in which user `"alice"` is known but has an empty notification
history (as left behind by `clear_notification_history`). -/
def known_empty_history_state : ServerState :=
  { user_last_context := fun _ => none
    user_notifications := fun u => if u = "alice" then some [] else none }

/-- A sample notification used to exercise the history bound. -/
def sample_event : NotificationEvent :=
  { type := "temperature_change"
    title := "Temperature Changed"
    message := "Temperature changed from 3°C to 5°C."
    old_temperature := some 3
    new_temperature := some 5 }

/-- A sample preference profile with a single configured meal. -/
def sample_preferences : UserPreferences :=
  { user_id := "alice"
    activity_type := "indoor"
    meal_times := [("lunch", "12:00")]
    preferred_cuisines := [] }

/-- A state whose only stored context for `"alice"` carries hour 10 (not
within one hour of the configured 12:00 lunch). -/
def hour10_state : ServerState :=
  { user_last_context := fun u =>
      if u = "alice" then some { time_hour := some 10 } else none
    user_notifications := fun _ => none }

/-! ## Theorems -/

/-- C1 (counterexample): the human-readable classifier `get_time_period`
does not put hour 2 in the Night bucket — it returns a sixth label,
`"Late Night"`. -/
theorem get_time_period_hour2_not_night :
    get_time_period 2 = "Late Night" ∧ get_time_period 2 ≠ "Night" := by
  decide

/-- C1 (amended): for every hour 0–23 the category-key classifier
`get_time_period_key` assigns exactly one of the five fixed, non-overlapping
buckets early_morning (5–7), morning (8–11), noon (12–16), evening (17–20)
and night (21–23 and 0–4) — in particular hours 2, 3 and 4 map to night —
while the human-readable `get_time_period` uses a sixth label, assigning
hours 2–4 "Late Night" and only 21–23 and 0–1 "Night". -/
theorem time_period_buckets (hour : ℤ) (h0 : 0 ≤ hour) (h23 : hour ≤ 23) :
    (get_time_period_key hour = "early_morning" ↔ 5 ≤ hour ∧ hour ≤ 7) ∧
    (get_time_period_key hour = "morning" ↔ 8 ≤ hour ∧ hour ≤ 11) ∧
    (get_time_period_key hour = "noon" ↔ 12 ≤ hour ∧ hour ≤ 16) ∧
    (get_time_period_key hour = "evening" ↔ 17 ≤ hour ∧ hour ≤ 20) ∧
    (get_time_period_key hour = "night" ↔ hour ≤ 4 ∨ 21 ≤ hour) ∧
    (get_time_period hour = "Night" ↔ hour ≤ 1 ∨ 21 ≤ hour) ∧
    (get_time_period hour = "Late Night" ↔ 2 ≤ hour ∧ hour ≤ 4) := by
  interval_cases hour <;> decide

/-- Witness for `time_period_buckets` at hour 3. -/
theorem time_period_buckets_witness :
    get_time_period_key 3 = "night" ∧ get_time_period 3 = "Late Night" := by
  have h := time_period_buckets 3 (by decide) (by decide)
  exact ⟨h.2.2.2.2.1.mpr (by decide), h.2.2.2.2.2.2.mpr (by decide)⟩

/-- C3 (code behaviour at the failing input): on a provider error the
weather lookup produces no value at all — a non-200 reply makes
`get_weather` fall off the end returning `None`, and a timeout raises — so
there is no fixed fallback weather value, contrary to the docstring of the function itself ("Returns simplified weather data with fallback"). -/
theorem get_weather_no_fallback :
    get_weather (some weather_error_response) = none ∧
    get_weather none = none := by
  constructor
  · simp [get_weather, weather_error_response]
  · rfl

/-- C2 (counterexample): for user `"alice"`, the notification-history
response in a state where the user is unknown is identical to the response
in a state where the user is known with an empty history — a plain success
payload with no notifications — so there is no distinct not-found signal. -/
theorem notification_history_no_not_found_signal :
    empty_state.user_notifications "alice" = none ∧
    known_empty_history_state.user_notifications "alice" = some [] ∧
    get_notification_history empty_state "alice" 20 =
      get_notification_history known_empty_history_state "alice" 20 ∧
    get_notification_history empty_state "alice" 20 =
      { user_id := "alice", notifications := [], total := 0, showing := 0 } := by
  refine ⟨rfl, by simp [known_empty_history_state], ?_, rfl⟩
  simp [get_notification_history, empty_state, known_empty_history_state]

/-- C2 (amended): retrieving notification history for a userId unknown to
the engine returns a normal success response with an empty notification
list and total 0 — exactly the response returned for a known user whose
history is empty; no distinct not-found signal is produced. -/
theorem notification_history_unknown_user (st st' : ServerState)
    (user_id : String) (limit : Nat)
    (hunknown : st.user_notifications user_id = none)
    (hempty : st'.user_notifications user_id = some []) :
    get_notification_history st user_id limit =
      { user_id := user_id, notifications := [], total := 0, showing := 0 } ∧
    get_notification_history st user_id limit =
      get_notification_history st' user_id limit := by
  unfold get_notification_history
  rw [hunknown, hempty]
  simp

/-- Witness for `notification_history_unknown_user` on the two sample
states. -/
theorem notification_history_unknown_user_witness :
    get_notification_history empty_state "alice" 20 =
      { user_id := "alice", notifications := [], total := 0, showing := 0 } ∧
    get_notification_history empty_state "alice" 20 =
      get_notification_history known_empty_history_state "alice" 20 :=
  notification_history_unknown_user empty_state known_empty_history_state
    "alice" 20 rfl (by simp [known_empty_history_state])

/-- C7: the weather-based activity filter never empties a non-empty
candidate list — whenever its categorical rules would drop every candidate
the unfiltered input is returned instead. -/
theorem filter_activities_by_weather_fail_open (activities : List String)
    (weather : String) (temperature : ℤ) (hne : activities ≠ []) :
    filter_activities_by_weather activities weather temperature ≠ [] ∧
    (activities.filter (keep_activity weather temperature) = [] →
      filter_activities_by_weather activities weather temperature =
        activities) := by
  unfold filter_activities_by_weather
  by_cases h : (activities.filter (keep_activity weather temperature)).isEmpty = true
  · rw [if_pos h]
    exact ⟨hne, fun _ => rfl⟩
  · rw [if_neg h]
    constructor
    · intro hc
      exact h (by rw [hc]; rfl)
    · intro hc
      exact absurd (by rw [hc]; rfl) h

/-- Witness for `filter_activities_by_weather_fail_open`: rainy weather at
5 °C empties the rule-filtered set for `["park"]`, and the unfiltered input
comes back. -/
theorem filter_activities_by_weather_fail_open_witness :
    filter_activities_by_weather ["park"] "rainy" 5 ≠ [] ∧
    (List.filter (keep_activity "rainy" 5) ["park"] = [] →
      filter_activities_by_weather ["park"] "rainy" 5 = ["park"]) :=
  filter_activities_by_weather_fail_open ["park"] "rainy" 5 (by decide)

/-- C8: when the profile asks for outdoor activities but the weather makes
`is_outdoor_suitable` false, the activity category set used for the place
query is exactly the indoor set for the same time period. -/
theorem outdoor_unsuitable_uses_indoor_categories (time_period w : String)
    (t : ℤ) (hw : w ≠ "")
    (hunsuitable : is_outdoor_suitable w t = false) :
    get_activity_search_terms "outdoor" time_period (some w) (some t) =
      get_activity_search_terms "indoor" time_period (some w) (some t) := by
  simp [get_activity_search_terms, hw, hunsuitable]

/-- Witness for `outdoor_unsuitable_uses_indoor_categories`: rainy at 5 °C
in the noon period. -/
theorem outdoor_unsuitable_uses_indoor_categories_witness :
    get_activity_search_terms "outdoor" "noon" (some "rainy") (some 5) =
      get_activity_search_terms "indoor" "noon" (some "rainy") (some 5) :=
  outdoor_unsuitable_uses_indoor_categories "noon" "rainy" 5 (by decide)
    (by decide)

/-- C9: the first context-diff call for a fresh userId (no stored context)
stores the incoming snapshot as the baseline, emits no events, and leaves
every notification history untouched, whatever the snapshot contains. -/
theorem first_context_update_emits_nothing (user_id : String)
    (new_context : ContextSnapshot) (preferences : UserPreferences)
    (st : ServerState)
    (hfresh : st.user_last_context user_id = none) :
    (detect_context_changes user_id new_context preferences st).1 = [] ∧
    (detect_context_changes user_id new_context preferences
        st).2.user_last_context user_id = some new_context ∧
    (detect_context_changes user_id new_context preferences
        st).2.user_notifications = st.user_notifications := by
  unfold detect_context_changes
  rw [hfresh]
  exact ⟨rfl, by simp [update_map], rfl⟩

/-- Witness for `first_context_update_emits_nothing` on the empty state. -/
theorem first_context_update_emits_nothing_witness :
    (detect_context_changes "alice" { time_hour := some 9, weather := some "sunny" }
        sample_preferences empty_state).1 = [] ∧
    (detect_context_changes "alice" { time_hour := some 9, weather := some "sunny" }
        sample_preferences empty_state).2.user_last_context "alice" =
      some { time_hour := some 9, weather := some "sunny" } ∧
    (detect_context_changes "alice" { time_hour := some 9, weather := some "sunny" }
        sample_preferences empty_state).2.user_notifications =
      empty_state.user_notifications :=
  first_context_update_emits_nothing "alice"
    { time_hour := some 9, weather := some "sunny" } sample_preferences
    empty_state rfl

/-- The haversine intermediate is symmetric in its two coordinates. -/
theorem haversine_a_symm (lat1 lon1 lat2 lon2 : ℝ) :
    haversine_a lat1 lon1 lat2 lon2 = haversine_a lat2 lon2 lat1 lon1 := by
  have hsin : ∀ u v : ℝ,
      Real.sin ((u - v) / 2) ^ 2 = Real.sin ((v - u) / 2) ^ 2 := by
    intro u v
    rw [show (u - v) / 2 = -((v - u) / 2) by ring, Real.sin_neg]
    ring
  unfold haversine_a
  rw [hsin (radians lat2) (radians lat1), hsin (radians lon2) (radians lon1),
    mul_comm (Real.cos (radians lat1)) (Real.cos (radians lat2))]

/-- C10: the great-circle distance is symmetric and zero on the diagonal:
`calculate_distance(a, b) = calculate_distance(b, a)` for all coordinates,
and `calculate_distance(a, a) = 0`. -/
theorem calculate_distance_symm_and_self_zero :
    (∀ lat1 lon1 lat2 lon2 : ℝ,
      calculate_distance lat1 lon1 lat2 lon2 =
        calculate_distance lat2 lon2 lat1 lon1) ∧
    (∀ lat lon : ℝ, calculate_distance lat lon lat lon = 0) := by
  constructor
  · intro lat1 lon1 lat2 lon2
    unfold calculate_distance
    rw [haversine_a_symm]
  · intro lat lon
    have ha : haversine_a lat lon lat lon = 0 := by
      unfold haversine_a
      simp
    show (6371 : ℝ) *
      (2 * atan2 (Real.sqrt (haversine_a lat lon lat lon))
        (Real.sqrt (1 - haversine_a lat lon lat lon))) = 0
    rw [ha]
    have h1 : Real.sqrt (1 - 0) = 1 := by
      rw [sub_zero, Real.sqrt_one]
    rw [Real.sqrt_zero, h1]
    have hatan : atan2 0 1 = 0 := by
      unfold atan2
      rw [if_pos one_pos]
      simp [Real.arctan_zero]
    rw [hatan]
    ring

/-- The restaurant part keeps at most 8 of the query results. -/
theorem meal_part_length_le (preferences : UserPreferences)
    (current_hour : ℤ) (restaurant_results : Option (List Place)) :
    (meal_part preferences current_hour restaurant_results).length ≤ 8 := by
  unfold meal_part
  split
  · simp
  · split
    · simp
    · split
      · simp
      · unfold meal_recommendations
        rw [List.length_map]
        calc (List.filter _ (List.take 8 _)).length
            ≤ (List.take 8 _).length := List.length_filter_le _ _
          _ ≤ 8 := by rw [List.length_take]; omega

/-- The activity loop only ever appends to the list it is given. -/
theorem add_activity_recommendations_eq_append (activities : List Place) :
    ∀ (recommendations : List Recommendation) (reason : String),
    ∃ added,
      add_activity_recommendations recommendations reason activities =
        recommendations ++ added := by
  induction activities with
  | nil =>
    intro recs reason
    exact ⟨[], by simp [add_activity_recommendations]⟩
  | cons p rest ih =>
    intro recs reason
    unfold add_activity_recommendations
    by_cases hf : is_food_place activity_food_terms p = true
    · rw [if_pos hf]
      exact ih recs reason
    · rw [if_neg hf]
      by_cases hl : 10 ≤ (recs ++ [activity_recommendation reason p]).length
      · rw [if_pos hl]
        exact ⟨[activity_recommendation reason p], rfl⟩
      · rw [if_neg hl]
        obtain ⟨d, hd⟩ := ih (recs ++ [activity_recommendation reason p]) reason
        exact ⟨activity_recommendation reason p :: d,
          by rw [hd, List.append_assoc]; rfl⟩

/-- The activity loop breaks at 10: starting strictly below 10, the result
never exceeds 10. -/
theorem add_activity_recommendations_length_le (activities : List Place) :
    ∀ (recommendations : List Recommendation) (reason : String),
    recommendations.length < 10 →
    (add_activity_recommendations recommendations reason activities).length
      ≤ 10 := by
  induction activities with
  | nil =>
    intro recs reason h
    unfold add_activity_recommendations
    omega
  | cons p rest ih =>
    intro recs reason h
    unfold add_activity_recommendations
    by_cases hf : is_food_place activity_food_terms p = true
    · rw [if_pos hf]
      exact ih recs reason h
    · rw [if_neg hf]
      have hlen : (recs ++ [activity_recommendation reason p]).length =
          recs.length + 1 := by simp
      by_cases hl : 10 ≤ (recs ++ [activity_recommendation reason p]).length
      · rw [if_pos hl]
        omega
      · rw [if_neg hl]
        exact ih _ reason (by omega)

/-- C4: for every preference profile, location, hour, weather input and
pair of (possibly failed) place-query results, the recommendation engine
returns an ordered list of at most 10 recommendations, of which the prefix
contributed by the meal/restaurant query holds at most 8. -/
theorem generate_recommendations_capped (preferences : UserPreferences)
    (location : LocationData) (current_hour : ℤ)
    (weather_data : WeatherData)
    (restaurant_results activity_results : Option (List Place)) :
    (generate_recommendations preferences location current_hour weather_data
        restaurant_results activity_results).length ≤ 10 ∧
    (meal_part preferences current_hour restaurant_results).length ≤ 8 ∧
    ∃ activity_recs,
      generate_recommendations preferences location current_hour weather_data
          restaurant_results activity_results =
        meal_part preferences current_hour restaurant_results ++
          activity_recs := by
  have hm8 := meal_part_length_le preferences current_hour restaurant_results
  have hm10 : (meal_part preferences current_hour restaurant_results).length
      < 10 := by omega
  have key : ∃ activity_recs,
      generate_recommendations preferences location current_hour weather_data
          restaurant_results activity_results =
        meal_part preferences current_hour restaurant_results ++
          activity_recs ∧
      (generate_recommendations preferences location current_hour
          weather_data restaurant_results activity_results).length ≤ 10 := by
    unfold generate_recommendations
    split
    · split
      · exact ⟨[], by simp, by omega⟩
      · split
        · exact ⟨[], by simp, by omega⟩
        · obtain ⟨d, hd⟩ := add_activity_recommendations_eq_append _
            (meal_part preferences current_hour restaurant_results)
            (activity_reason preferences current_hour weather_data)
          exact ⟨d, hd,
            add_activity_recommendations_length_le _ _ _ hm10⟩
    · exact ⟨[], by simp, by omega⟩
  obtain ⟨d, hd, hlen⟩ := key
  exact ⟨hlen, hm8, d, hd⟩

/-- Truncation `lastN` keeps at most `n` elements. -/
theorem length_lastN {α : Type} (n : Nat) (l : List α) :
    (lastN n l).length ≤ n := by
  simp only [lastN, List.length_drop]
  omega

/-- Truncation `lastN` is the identity on lists no longer than `n`. -/
theorem lastN_of_length_le {α : Type} (n : Nat) (l : List α)
    (h : l.length ≤ n) : lastN n l = l := by
  simp [lastN, Nat.sub_eq_zero_of_le h]

/-- Dropping a prefix cannot change the last `n` elements when the suffix
already has at least `n`. -/
theorem lastN_append_of_le {α : Type} (n : Nat) (t r : List α)
    (h : n ≤ r.length) : lastN n (t ++ r) = lastN n r := by
  simp only [lastN, List.length_append]
  rw [show t.length + r.length - n = t.length + (r.length - n) by omega]
  exact List.drop_append _

/-- Truncating to the last `n`, appending, and truncating again is the same
as truncating the whole concatenation: eviction is oldest-first. -/
theorem lastN_append_lastN {α : Type} (n : Nat) (l m : List α) :
    lastN n (lastN n l ++ m) = lastN n (l ++ m) := by
  by_cases h : l.length ≤ n
  · rw [lastN_of_length_le n l h]
  · have hlen : (lastN n l).length = n := by
      simp only [lastN, List.length_drop]
      omega
    conv_rhs =>
      rw [show l = l.take (l.length - n) ++ lastN n l from
        (List.take_append_drop _ l).symm]
      rw [List.append_assoc]
    rw [lastN_append_of_le n (l.take (l.length - n)) (lastN n l ++ m)
      (by simp only [List.length_append, hlen]; omega)]

/-- Folding single-element history appends over a batch of events yields
the truncated concatenation. -/
theorem foldl_lastN_append {α : Type} (n : Nat) (evts : List α) :
    ∀ h : List α,
      evts.foldl (fun acc e => lastN n (acc ++ [e])) (lastN n h) =
        lastN n (h ++ evts) := by
  induction evts with
  | nil => intro h; simp
  | cons e es ih =>
    intro h
    calc (e :: es).foldl (fun acc e => lastN n (acc ++ [e])) (lastN n h)
        = es.foldl (fun acc e => lastN n (acc ++ [e]))
            (lastN n (lastN n h ++ [e])) := rfl
      _ = es.foldl (fun acc e => lastN n (acc ++ [e]))
            (lastN n (h ++ [e])) := by rw [lastN_append_lastN]
      _ = lastN n ((h ++ [e]) ++ es) := ih (h ++ [e])
      _ = lastN n (h ++ e :: es) := by simp

/-- Storing one notification after another: the history at `user_id` after
folding `store_notification` over a non-empty batch. -/
theorem foldl_store_notification (user_id : String) :
    ∀ (evts : List NotificationEvent) (st : ServerState), evts ≠ [] →
      ((evts.foldl (fun s e => store_notification user_id e s)
          st).user_notifications user_id) =
        some (lastN NOTIFICATION_HISTORY_LIMIT
          (((st.user_notifications user_id).getD []) ++ evts)) := by
  intro evts
  induction evts with
  | nil => intro st h; exact absurd rfl h
  | cons e es ih =>
    intro st _
    by_cases hes : es = []
    · subst hes
      simp [store_notification, update_map]
    · have step : ((store_notification user_id e
          st).user_notifications user_id) =
            some (lastN NOTIFICATION_HISTORY_LIMIT
              (((st.user_notifications user_id).getD []) ++ [e])) := by
        simp [store_notification, update_map]
      calc ((e :: es).foldl (fun s e => store_notification user_id e s)
              st).user_notifications user_id
          = ((es.foldl (fun s e => store_notification user_id e s)
              (store_notification user_id e st)).user_notifications
                user_id) := rfl
        _ = some (lastN NOTIFICATION_HISTORY_LIMIT
              ((((store_notification user_id e st).user_notifications
                user_id).getD []) ++ es)) := ih _ hes
        _ = some (lastN NOTIFICATION_HISTORY_LIMIT
              ((lastN NOTIFICATION_HISTORY_LIMIT
                (((st.user_notifications user_id).getD []) ++ [e])) ++ es)) := by
              rw [step]; rfl
        _ = some (lastN NOTIFICATION_HISTORY_LIMIT
              ((((st.user_notifications user_id).getD []) ++ [e]) ++ es)) := by
              rw [lastN_append_lastN]
        _ = some (lastN NOTIFICATION_HISTORY_LIMIT
              (((st.user_notifications user_id).getD []) ++ e :: es)) := by
              simp

/-- C5: notification histories are bounded by 50 with oldest-first
eviction: both `store_notification` and the history write of
`detect_context_changes` preserve the bound for every user, and 60
sequential one-event stores into a fresh history leave exactly the most
recent 50 events (the first 10 evicted). -/
theorem notification_history_bounded :
    (∀ (st : ServerState) (user_id : String) (ev : NotificationEvent)
        (u : String),
      ((st.user_notifications u).getD []).length ≤ 50 →
      (((store_notification user_id ev st).user_notifications u).getD
          []).length ≤ 50) ∧
    (∀ (user_id : String) (new_context : ContextSnapshot)
        (preferences : UserPreferences) (st : ServerState) (u : String),
      ((st.user_notifications u).getD []).length ≤ 50 →
      ((((detect_context_changes user_id new_context preferences
          st).2).user_notifications u).getD []).length ≤ 50) ∧
    (∀ (user_id : String) (evts : List NotificationEvent)
        (st : ServerState),
      st.user_notifications user_id = none → evts.length = 60 →
      ((evts.foldl (fun s e => store_notification user_id e s)
          st).user_notifications user_id) = some (evts.drop 10)) := by
  refine ⟨?_, ?_, ?_⟩
  · intro st user_id ev u h
    unfold store_notification update_map
    by_cases hu : u = user_id
    · simp only [hu, if_pos rfl, Option.getD_some]
      exact length_lastN _ _
    · simpa [hu] using h
  · intro user_id new_context preferences st u h
    unfold detect_context_changes
    split
    · exact h
    · unfold store_notification_batch
      split
      · exact h
      · unfold update_map
        by_cases hu : u = user_id
        · simp only [hu, if_pos rfl, Option.getD_some]
          exact length_lastN _ _
        · simpa [hu] using h
  · intro user_id evts st hnone hlen
    have hne : evts ≠ [] := by
      intro hc
      rw [hc] at hlen
      simp at hlen
    rw [foldl_store_notification user_id evts st hne, hnone]
    have : lastN NOTIFICATION_HISTORY_LIMIT evts = evts.drop 10 := by
      unfold lastN NOTIFICATION_HISTORY_LIMIT
      rw [hlen]
    rw [Option.getD_none, List.nil_append, this]

/-- Witness for `notification_history_bounded`: one store into the empty
state keeps the bound, and 60 identical one-event stores leave the last
50. -/
theorem notification_history_bounded_witness :
    ((((store_notification "alice" sample_event
        empty_state).user_notifications "alice").getD []).length ≤ 50) ∧
    (((List.replicate 60 sample_event).foldl
        (fun s e => store_notification "alice" e s)
        empty_state).user_notifications "alice" =
      some ((List.replicate 60 sample_event).drop 10)) :=
  ⟨notification_history_bounded.1 empty_state "alice" sample_event "alice"
      (by simp [empty_state]),
   notification_history_bounded.2.2 "alice" (List.replicate 60 sample_event)
      empty_state rfl (by simp)⟩

/-- Every event of the location branch is a `location_change`. -/
theorem mem_location_change_events_type {nc oc : ContextSnapshot} :
    ∀ e ∈ location_change_events nc oc, e.type = "location_change" := by
  intro e h
  unfold location_change_events at h
  split at h
  · split at h
    · simp only [List.mem_singleton] at h
      subst h
      rfl
    · exact absurd h (List.not_mem_nil e)
  · exact absurd h (List.not_mem_nil e)

/-- Every event of the time-period branch is a `time_period_change`. -/
theorem mem_time_period_change_events_type {nc oc : ContextSnapshot} :
    ∀ e ∈ time_period_change_events nc oc, e.type = "time_period_change" := by
  intro e h
  unfold time_period_change_events at h
  split at h
  · split at h
    · simp only [List.mem_singleton] at h
      subst h
      rfl
    · exact absurd h (List.not_mem_nil e)
  · exact absurd h (List.not_mem_nil e)

/-- Every event of the weather branch is a `weather_change`. -/
theorem mem_weather_change_events_type {nc oc : ContextSnapshot} :
    ∀ e ∈ weather_change_events nc oc, e.type = "weather_change" := by
  intro e h
  unfold weather_change_events at h
  split at h
  · split at h
    · simp only [List.mem_singleton] at h
      subst h
      rfl
    · exact absurd h (List.not_mem_nil e)
  · exact absurd h (List.not_mem_nil e)

/-- Every event of the temperature branch is a `temperature_change`. -/
theorem mem_temperature_change_events_type {nc oc : ContextSnapshot} :
    ∀ e ∈ temperature_change_events nc oc, e.type = "temperature_change" := by
  intro e h
  unfold temperature_change_events at h
  split at h
  · split at h
    · simp only [List.mem_singleton] at h
      subst h
      rfl
    · exact absurd h (List.not_mem_nil e)
  · exact absurd h (List.not_mem_nil e)

/-- Every event of the meal check is a `meal_time`. -/
theorem mem_meal_time_events_at_type {p : UserPreferences}
    {new_hour old_hour : ℤ} :
    ∀ e ∈ meal_time_events_at p new_hour old_hour, e.type = "meal_time" := by
  intro e h
  unfold meal_time_events_at at h
  split at h
  · split at h
    · simp only [List.mem_singleton] at h
      subst h
      rfl
    · exact absurd h (List.not_mem_nil e)
  · exact absurd h (List.not_mem_nil e)

/-- Every event of the meal branch is a `meal_time`. -/
theorem mem_meal_time_events_type {p : UserPreferences}
    {nc oc : ContextSnapshot} :
    ∀ e ∈ meal_time_events p nc oc, e.type = "meal_time" := by
  intro e h
  unfold meal_time_events at h
  split at h
  · exact mem_meal_time_events_at_type e h
  · exact absurd h (List.not_mem_nil e)

/-- A meal returned by `get_meal_type` is one of the configured meals. -/
theorem get_meal_type_mem {hr : ℤ} {m : String} :
    ∀ {mts : List (String × String)}, get_meal_type hr mts = some m →
      ∃ t, (m, t) ∈ mts := by
  intro mts
  induction mts with
  | nil => intro h; simp [get_meal_type] at h
  | cons p rest ih =>
    intro h
    obtain ⟨meal, time_str⟩ := p
    simp only [get_meal_type] at h
    split at h
    · split at h
      · injection h with h
        exact ⟨time_str, by rw [h] at *; exact List.mem_cons_self _ _⟩
      · obtain ⟨t, ht⟩ := ih h
        exact ⟨t, List.mem_cons_of_mem _ ht⟩
    · obtain ⟨t, ht⟩ := ih h
      exact ⟨t, List.mem_cons_of_mem _ ht⟩

/-- The meal check fires exactly when the new hour has a (non-empty-named)
meal match differing from the match at the old hour. -/
theorem meal_time_events_at_ne_nil_iff (preferences : UserPreferences)
    (new_hour old_hour : ℤ)
    (hvalid : ∀ p ∈ preferences.meal_times, p.1 ≠ "") :
    meal_time_events_at preferences new_hour old_hour ≠ [] ↔
      ((get_meal_type new_hour preferences.meal_times).isSome ∧
        get_meal_type new_hour preferences.meal_times ≠
          get_meal_type old_hour preferences.meal_times) := by
  unfold meal_time_events_at
  cases hm : get_meal_type new_hour preferences.meal_times with
  | none => simp
  | some meal =>
    have hne : meal ≠ "" := by
      obtain ⟨t, hmem⟩ := get_meal_type_mem hm
      exact hvalid (meal, t) hmem
    by_cases hd : some meal = get_meal_type old_hour preferences.meal_times
    · simp [← hd]
    · simp [hd, hne]

/-- The meal branch fires exactly when both snapshots carry an hour and the
meal check fires for that pair of hours. -/
theorem meal_time_events_ne_nil_iff (preferences : UserPreferences)
    (nc oc : ContextSnapshot) (new_hour old_hour : ℤ)
    (hn : nc.time_hour = some new_hour) (ho : oc.time_hour = some old_hour)
    (hvalid : ∀ p ∈ preferences.meal_times, p.1 ≠ "") :
    meal_time_events preferences nc oc ≠ [] ↔
      ((get_meal_type new_hour preferences.meal_times).isSome ∧
        get_meal_type new_hour preferences.meal_times ≠
          get_meal_type old_hour preferences.meal_times) := by
  unfold meal_time_events
  rw [hn, ho]
  exact meal_time_events_at_ne_nil_iff preferences new_hour old_hour hvalid

/-- C6: when both the stored and the incoming snapshot carry an hour, the
context diff emits a `meal_time` event if and only if the meal match for
the new hour exists and differs from the meal match for the old hour — in
particular a transition into no-meal emits no `meal_time` event.  (The
hypothesis that configured meal names are non-empty strings is guaranteed
by the Pydantic validator on `UserPreferences`.) -/
theorem meal_time_event_iff (preferences : UserPreferences)
    (user_id : String) (st : ServerState)
    (new_context old_context : ContextSnapshot) (new_hour old_hour : ℤ)
    (hstored : st.user_last_context user_id = some old_context)
    (hvalid : ∀ p ∈ preferences.meal_times, p.1 ≠ "")
    (hnew : new_context.time_hour = some new_hour)
    (hold : old_context.time_hour = some old_hour) :
    (∃ e ∈ (detect_context_changes user_id new_context preferences st).1,
        e.type = "meal_time") ↔
      ((get_meal_type new_hour preferences.meal_times).isSome ∧
        get_meal_type new_hour preferences.meal_times ≠
          get_meal_type old_hour preferences.meal_times) := by
  have hev : (detect_context_changes user_id new_context preferences st).1 =
      detect_notifications preferences new_context old_context := by
    unfold detect_context_changes
    rw [hstored]
  rw [hev]
  unfold detect_notifications
  constructor
  · rintro ⟨e, he, ht⟩
    simp only [List.mem_append] at he
    rcases he with (((hA | hB | hM) | hC) | hD)
    · rw [mem_location_change_events_type e hA] at ht
      exact absurd ht (by decide)
    · rw [mem_time_period_change_events_type e hB] at ht
      exact absurd ht (by decide)
    · exact (meal_time_events_ne_nil_iff preferences new_context old_context
        new_hour old_hour hnew hold hvalid).mp (List.ne_nil_of_mem hM)
    · rw [mem_weather_change_events_type e hC] at ht
      exact absurd ht (by decide)
    · rw [mem_temperature_change_events_type e hD] at ht
      exact absurd ht (by decide)
  · intro hcond
    have hne := (meal_time_events_ne_nil_iff preferences new_context
      old_context new_hour old_hour hnew hold hvalid).mpr hcond
    obtain ⟨e, he⟩ := List.exists_mem_of_ne_nil _ hne
    have h1 : e ∈ time_period_change_events new_context old_context ++
        meal_time_events preferences new_context old_context :=
      List.mem_append_right _ he
    have h2 := List.mem_append_right
      (location_change_events new_context old_context) h1
    have h3 := List.mem_append_left
      (weather_change_events new_context old_context) h2
    have h4 := List.mem_append_left
      (temperature_change_events new_context old_context) h3
    exact ⟨e, h4, mem_meal_time_events_type e he⟩

/-- Witness for `meal_time_event_iff`: with lunch configured at 12:00, a
transition from stored hour 10 to hour 12 emits a `meal_time` event. -/
theorem meal_time_event_iff_witness :
    ∃ e ∈ (detect_context_changes "alice" { time_hour := some 12 }
        sample_preferences hour10_state).1, e.type = "meal_time" :=
  (meal_time_event_iff sample_preferences "alice" hour10_state
      { time_hour := some 12 } { time_hour := some 10 } 12 10
      (by simp [hour10_state]) (by decide) rfl rfl).mpr
    ⟨by decide, by decide⟩

end TravelCompanion
